import Mathlib

/-!
Verification development for the pyspark-docker-api repository.

The repository has three source files:
* `src/api/main.py` — a FastAPI service over a pandas DataFrame loaded from
  parquet.  The file contains two concatenated module versions; Python binds
  each top-level name to its *last* definition, so the second
  `load_parquet_data` (line 427, no cache) shadows the caching one (line 39),
  while both sets of route handlers stay registered (Starlette matches the
  first route per method+path, so the POST `/filter` handler of the first
  half and the GET `/filter` handler of the second half are both live).
* `src/scripts/consolidate_chunks.py` — merges chunk folders into one
  consolidated parquet file, deleting each chunk right after reading it.
* `src/scripts/spark_job.py` — the batch cleaning pipeline
  (validity filter, timestamp parse, date filter, enrichment, range filter).

Machine floats of the source are modelled as exact rationals, machine ints as
`Int`; timestamps are unix seconds (`Int`), matching the second resolution of
the parse format `MM/dd/yyyy hh:mm:ss a`.  Spark SQL's three-valued logic is
modelled explicitly by `TBool`.
-/

namespace TaxiApi

/-- Pandas column dtypes that the source code dispatches on. -/
inductive Dtype
  | int64
  | float64
  | object
  | category
  | datetime64
deriving DecidableEq, Repr

/-- One cell of a pandas DataFrame. `vnull` is NaN/None. -/
inductive PdVal
  | vint (i : Int)
  | vfloat (q : ℚ)
  | vstr (s : String)
  | vts (t : Int)
  | vnull
deriving DecidableEq, Repr

/-- A JSON value arriving through the pydantic `value : Any` field of
`FilterRequest` (string, int, float, or list). -/
inductive ReqVal
  | rstr (s : String)
  | rint (i : Int)
  | rfloat (q : ℚ)
  | rlist (l : List ReqVal)

/-- A row, positionally aligned with the column list of its DataFrame. -/
abbrev Row := List PdVal

/-- The in-memory DataFrame: named, typed columns plus ordered rows. -/
structure DataFrame where
  cols : List (String × Dtype)
  rows : List Row
deriving DecidableEq, Repr

/-- Index of a column name in the DataFrame (`column in df.columns` plus
positional access). -/
def DataFrame.colIdx (df : DataFrame) (c : String) : Option Nat :=
  df.cols.findIdx? (fun p => p.1 == c)

/-- Dtype of the column at index `i` (`df[column].dtype`). -/
def DataFrame.dtypeAt (df : DataFrame) (i : Nat) : Dtype :=
  (df.cols.getD i ("", Dtype.object)).2

/-- Cell of row `r` in column position `i`. -/
def cellAt (r : Row) (i : Nat) : PdVal := r.getD i PdVal.vnull

/-- Substring test on the underlying character lists. -/
def strContainsSub (hay needle : String) : Bool :=
  (List.range (hay.toList.length + 1)).any
    (fun k => needle.toList.isPrefixOf (hay.toList.drop k))

/-- Value of the digit characters `ds` read in base 10. -/
def digitsToNat (ds : List Char) : Nat :=
  ds.foldl (fun a c => a * 10 + (c.toNat - 48)) 0

/-- `l` consists of decimal digits only. -/
def isDigits (l : List Char) : Bool := l.all (fun c => c.isDigit)

/-- Python `.lower()`, character by character. -/
def lowerStr (s : String) : String := String.mk (s.toList.map Char.toLower)

/-- AST for the modeled core of Python regular expressions, as compiled by
`Series.str.contains(pat, case=False, na=False)` whose default `regex=True`
treats the value as a pattern under `re.IGNORECASE`.  Modeled constructs:
literals, `.`, character classes with ranges and negation, the class escapes
`\d \D \w \W \s \S`, escaped metacharacters, concatenation, alternation,
grouping, and the quantifiers `* + ?` and counted repeats (desugared into
star/sequence/option).  Anchors, boundaries, backreferences, lookaround,
extension groups and hex/unicode escapes are outside the modeled subset and
are rejected by the parser; error messages abbreviate the corresponding
`re.error` messages. -/
inductive ReAst
  | nul
  | eps
  | anyCh
  | lit (c : Char)
  | cls (neg : Bool) (singles : List Char) (ranges : List (Char × Char))
  | seq (a b : ReAst)
  | alt (a b : ReAst)
  | star (a : ReAst)
deriving DecidableEq, Repr

/-- Whether the regex accepts the empty string. -/
def ReAst.nullable : ReAst → Bool
  | .nul => false
  | .eps => true
  | .anyCh => false
  | .lit _ => false
  | .cls _ _ _ => false
  | .seq a b => a.nullable && b.nullable
  | .alt a b => a.nullable || b.nullable
  | .star _ => true

/-- Case-insensitive membership of `c` in a character class (ASCII case
folding, the effective behavior of `re.IGNORECASE` for these patterns). -/
def clsMemberCI (singles : List Char) (ranges : List (Char × Char))
    (c : Char) : Bool :=
  let test := fun (x : Char) =>
    singles.any (fun s => s.toLower == x.toLower) ||
      ranges.any (fun p => decide (p.1 ≤ x) && decide (x ≤ p.2))
  test c || test c.toLower || test c.toUpper

/-- Brzozowski derivative of the regex by one input character, folding case
(`case=False` compiles the pattern with `re.IGNORECASE`); `.` does not match
a newline, as in `re` without `DOTALL`. -/
def ReAst.deriv : ReAst → Char → ReAst
  | .nul, _ => .nul
  | .eps, _ => .nul
  | .anyCh, c => if c = '\n' then .nul else .eps
  | .lit a, c => if a.toLower == c.toLower then .eps else .nul
  | .cls neg ss rs, c => if clsMemberCI ss rs c != neg then .eps else .nul
  | .seq a b, c =>
      if a.nullable then .alt (.seq (a.deriv c) b) (b.deriv c)
      else .seq (a.deriv c) b
  | .alt a b, c => .alt (a.deriv c) (b.deriv c)
  | .star a, c => .seq (a.deriv c) (.star a)

/-- Whether the regex matches some prefix of `l`. -/
def ReAst.acceptsPrefix : ReAst → List Char → Bool
  | r, [] => r.nullable
  | r, c :: cs => r.nullable || (r.deriv c).acceptsPrefix cs

/-- Whether the regex matches starting at some position of `l`. -/
def searchFromAll : ReAst → List Char → Bool
  | r, [] => r.nullable
  | r, c :: cs => r.acceptsPrefix (c :: cs) || searchFromAll r cs

/-- `re.search` semantics used by `str.contains`: the pattern matches
somewhere in the text. -/
def reSearch (r : ReAst) (s : String) : Bool := searchFromAll r s.toList

/-- `n`-fold repetition of a regex (`a` followed by itself `n` times). -/
def ReAst.repeatN : ReAst → Nat → ReAst
  | _, 0 => .eps
  | a, n + 1 => .seq a (a.repeatN n)

/-- `n` optional copies of a regex, the tail of a counted repeat. -/
def optPow (a : ReAst) : Nat → ReAst
  | 0 => .eps
  | n + 1 => .seq (.alt a .eps) (optPow a n)

/-- The ASCII whitespace set of the `\s` class escape. -/
def spaceChars : List Char := [' ', '\t', '\n', '\r', '\x0b', '\x0c']

/-- One escape sequence after a backslash (outside a character class). -/
def parseEscape (l : List Char) : Except String (ReAst × List Char) :=
  match l with
  | [] => .error "bad escape (end of pattern)"
  | c :: r =>
      if c = 'd' then .ok (.cls false [] [('0', '9')], r)
      else if c = 'D' then .ok (.cls true [] [('0', '9')], r)
      else if c = 'w' then
        .ok (.cls false ['_'] [('a', 'z'), ('A', 'Z'), ('0', '9')], r)
      else if c = 'W' then
        .ok (.cls true ['_'] [('a', 'z'), ('A', 'Z'), ('0', '9')], r)
      else if c = 's' then .ok (.cls false spaceChars [], r)
      else if c = 'S' then .ok (.cls true spaceChars [], r)
      else if c = 'n' then .ok (.lit '\n', r)
      else if c = 't' then .ok (.lit '\t', r)
      else if c = 'r' then .ok (.lit '\r', r)
      else if c.isAlpha || c.isDigit then
        .error "bad escape or escape outside the modeled subset"
      else .ok (.lit c, r)

/-- Body of a `[...]` character class after the opening bracket and any
leading `^`/literal `]`; accumulates singles and ranges until `]`. -/
def parseClassBody (fuel : Nat) (ss : List Char) (rs : List (Char × Char)) :
    List Char → Except String (List Char × List (Char × Char) × List Char) :=
  match fuel with
  | 0 => fun _ => .error "pattern too deeply nested"
  | fuel + 1 => fun l =>
      match l with
      | [] => .error "unterminated character set"
      | ']' :: rest => .ok (ss, rs, rest)
      | '\\' :: rest =>
          match rest with
          | [] => .error "bad escape (end of pattern)"
          | e :: r2 =>
              if e = 'd' then parseClassBody fuel ss (('0', '9') :: rs) r2
              else if e = 'w' then
                parseClassBody fuel ('_' :: ss)
                  (('a', 'z') :: ('A', 'Z') :: ('0', '9') :: rs) r2
              else if e = 's' then
                parseClassBody fuel (spaceChars ++ ss) rs r2
              else if e.isAlpha || e.isDigit then
                .error "bad escape or escape outside the modeled subset"
              else parseClassBody fuel (e :: ss) rs r2
      | c :: '-' :: d :: rest =>
          if d = ']' then parseClassBody fuel ('-' :: c :: ss) rs (d :: rest)
          else if c ≤ d then parseClassBody fuel ss ((c, d) :: rs) rest
          else .error "bad character range"
      | c :: rest => parseClassBody fuel (c :: ss) rs rest

/-- A `[...]` character class after its opening bracket: optional negation,
a leading `]` taken literally, then the body. -/
def parseClass (fuel : Nat) (l : List Char) :
    Except String (ReAst × List Char) :=
  let p1 := match l with
    | '^' :: r => (true, r)
    | _ => (false, l)
  let p2 := match p1.2 with
    | ']' :: r => (([']'] : List Char), r)
    | _ => ([], p1.2)
  match parseClassBody fuel p2.1 [] p2.2 with
  | .error e => .error e
  | .ok (ss, rs, rest) => .ok (.cls p1.1 ss rs, rest)

/-- After one quantifier (and an optional lazy `?`, which does not change
the boolean match), a directly stacked quantifier is a `multiple repeat`
error, as in `re`. -/
def lazyAndCheck (q : ReAst) (l : List Char) :
    Except String (ReAst × List Char) :=
  let l2 := match l with
    | '?' :: t => t
    | _ => l
  match l2 with
  | '*' :: _ => .error "multiple repeat"
  | '+' :: _ => .error "multiple repeat"
  | '?' :: _ => .error "multiple repeat"
  | _ => .ok (q, l2)

/-- Postfix quantifiers on an atom: `* + ?` and the counted repeats; a brace
that does not form a valid counted repeat stays a literal, as in `re`. -/
def applyQuant (a : ReAst) (l : List Char) :
    Except String (ReAst × List Char) :=
  match l with
  | '*' :: r => lazyAndCheck (.star a) r
  | '+' :: r => lazyAndCheck (.seq a (.star a)) r
  | '?' :: r => lazyAndCheck (.alt a .eps) r
  | '\x7b' :: r =>
      let ds := r.takeWhile Char.isDigit
      let r2 := r.dropWhile Char.isDigit
      if ds.isEmpty then .ok (a, l)
      else
        match r2 with
        | '\x7d' :: r3 => lazyAndCheck (a.repeatN (digitsToNat ds)) r3
        | ',' :: r3 =>
            let ds2 := r3.takeWhile Char.isDigit
            let r4 := r3.dropWhile Char.isDigit
            match r4 with
            | '\x7d' :: r5 =>
                if ds2.isEmpty then
                  lazyAndCheck
                    (.seq (a.repeatN (digitsToNat ds)) (.star a)) r5
                else if digitsToNat ds ≤ digitsToNat ds2 then
                  lazyAndCheck
                    (.seq (a.repeatN (digitsToNat ds))
                      (optPow a (digitsToNat ds2 - digitsToNat ds))) r5
                else .error "min repeat greater than max repeat"
            | _ => .ok (a, l)
        | _ => .ok (a, l)
  | _ => .ok (a, l)

/-- Recursive-descent parser for the modeled regex core, fuel-bounded so
that it stays structurally recursive.  `mode` selects the grammar level:
0 alternation, 1 concatenation, 2 quantified piece, other: atom. -/
def parseM (fuel : Nat) (mode : Nat) (l : List Char) :
    Except String (ReAst × List Char) :=
  match fuel with
  | 0 => .error "pattern too deeply nested"
  | fuel + 1 =>
      if mode = 0 then do
        let (a, r1) ← parseM fuel 1 l
        match r1 with
        | '|' :: r2 => do
            let (b, r3) ← parseM fuel 0 r2
            pure (.alt a b, r3)
        | _ => pure (a, r1)
      else if mode = 1 then
        match l with
        | [] => pure (.eps, [])
        | c :: rest =>
            if c = ')' || c = '|' then pure (.eps, c :: rest)
            else do
              let (a, r2) ← parseM fuel 2 (c :: rest)
              let (b, r3) ← parseM fuel 1 r2
              pure (.seq a b, r3)
      else if mode = 2 then do
        let (a, r) ← parseM fuel 3 l
        applyQuant a r
      else
        match l with
        | [] => .error "nothing to match"
        | '(' :: '?' :: ':' :: r => do
            let (a, r2) ← parseM fuel 0 r
            match r2 with
            | ')' :: r3 => pure (a, r3)
            | _ => .error "missing ), unterminated subpattern"
        | '(' :: '?' :: _ => .error "extension group outside the modeled subset"
        | '(' :: r => do
            let (a, r2) ← parseM fuel 0 r
            match r2 with
            | ')' :: r3 => pure (a, r3)
            | _ => .error "missing ), unterminated subpattern"
        | ')' :: _ => .error "unbalanced parenthesis"
        | '[' :: r => parseClass fuel r
        | '*' :: _ => .error "nothing to repeat"
        | '+' :: _ => .error "nothing to repeat"
        | '?' :: _ => .error "nothing to repeat"
        | '^' :: _ => .error "anchor outside the modeled subset"
        | '$' :: _ => .error "anchor outside the modeled subset"
        | '\\' :: r => parseEscape r
        | '.' :: r => pure (.anyCh, r)
        | c :: r => pure (.lit c, r)

/-- Compilation of a `str.contains` pattern under `case=False`
(`re.compile(pat, re.IGNORECASE)`): an invalid pattern is the raised
`re.error`. -/
def pyReCompileCI (pat : String) : Except String ReAst :=
  match parseM (8 * pat.toList.length + 32) 0 pat.toList with
  | .error e => .error e
  | .ok (r, []) => .ok r
  | .ok (_, _) => .error "unbalanced parenthesis"

/-- Whitespace stripped from both ends (Python `str.strip()`). -/
def trimChars (l : List Char) : List Char :=
  ((l.dropWhile Char.isWhitespace).reverse.dropWhile Char.isWhitespace).reverse

/-- Python `str.strip()`. -/
def strTrim (s : String) : String := String.mk (trimChars s.toList)

/-- Split a character list at every occurrence of `sep`
(Python `str.split(sep)` for a one-character separator). -/
def splitOnCharList (sep : Char) : List Char → List (List Char)
  | [] => [[]]
  | c :: cs =>
      match splitOnCharList sep cs with
      | [] => [[]]
      | h :: t => if c = sep then [] :: h :: t else (c :: h) :: t

/-- Model of Python `float(s)`: optional sign, decimal digits with an optional
fractional part, surrounding whitespace stripped. `none` models the
`ValueError` raised on anything else. -/
def pyFloatOfString (s : String) : Option ℚ :=
  let t := trimChars s.toList
  let neg : Bool := t.head? = some '-'
  let body := if t.head? = some '-' || t.head? = some '+' then t.drop 1 else t
  match splitOnCharList '.' body with
  | [a] =>
      if a.length ≠ 0 && isDigits a then
        let mag : ℚ := (digitsToNat a : ℚ)
        some (if neg then -mag else mag)
      else none
  | [a, b] =>
      if (a.length + b.length ≠ 0) && isDigits a && isDigits b then
        let mag : ℚ := (digitsToNat a : ℚ) +
          (digitsToNat b : ℚ) / ((10 : ℚ) ^ b.length)
        some (if neg then -mag else mag)
      else none
  | _ => none

/-- Model of Python `int(f)` on a float: truncation toward zero. -/
def pyIntOfFloat (q : ℚ) : Int := q.num / (q.den : Int)

/-- Rendering of a float by Python `str` (only the integral case is relied
upon by any theorem below). -/
def pyStrOfRat (q : ℚ) : String :=
  if q.den = 1 then toString q.num ++ ".0" else toString q

/-- `astype(str)` on one cell; pandas renders NaN as the string `nan`. -/
def PdVal.astypeStr : PdVal → String
  | .vint i => toString i
  | .vfloat q => pyStrOfRat q
  | .vstr s => s
  | .vts t => toString t
  | .vnull => "nan"

/-- Python `str(value)` on a request value (scalars only are relied upon). -/
def ReqVal.pyStr : ReqVal → String
  | .rstr s => s
  | .rint i => toString i
  | .rfloat q => pyStrOfRat q
  | .rlist _ => "[...]"

/-- Pandas `==` between a cell and a scalar: NaN compares unequal to
everything, numeric kinds compare by value, strings compare to strings, and
any cross-kind comparison is `False` (pandas does not raise for `==`). -/
def pdEqScalar : PdVal → ReqVal → Bool
  | .vint i, .rint j => i == j
  | .vint i, .rfloat q => (i : ℚ) == q
  | .vfloat q, .rint j => q == (j : ℚ)
  | .vfloat p, .rfloat q => p == q
  | .vstr s, .rstr t => s == t
  | _, _ => false

/-- An HTTP error surfaced by a handler (`HTTPException(status, detail)`). -/
structure HttpError where
  status : Nat
  detail : String
deriving DecidableEq, Repr

instance {ε α : Type} [DecidableEq ε] [DecidableEq α] :
    DecidableEq (Except ε α) := fun a b =>
  match a, b with
  | .error e, .error f =>
      if h : e = f then isTrue (by rw [h])
      else isFalse (by intro hh; cases hh; exact h rfl)
  | .ok x, .ok y =>
      if h : x = y then isTrue (by rw [h])
      else isFalse (by intro hh; cases hh; exact h rfl)
  | .error _, .ok _ => isFalse (by intro hh; cases hh)
  | .ok _, .error _ => isFalse (by intro hh; cases hh)

/-- Pandas ordered comparison (`>`, `<`, `>=`, `<=`) of one cell against a
scalar: NaN yields `False`; numerics compare by value; strings compare
lexicographically; mixing a string with a number raises `TypeError`.
`opq` and `opstr` are the comparison applied as `op cell value`. -/
def pdOrdScalar (opq : ℚ → ℚ → Bool) (opstr : String → String → Bool) :
    PdVal → ReqVal → Except String Bool
  | .vnull, _ => .ok false
  | .vint i, .rint j => .ok (opq (i : ℚ) (j : ℚ))
  | .vint i, .rfloat q => .ok (opq (i : ℚ) q)
  | .vfloat q, .rint j => .ok (opq q (j : ℚ))
  | .vfloat p, .rfloat q => .ok (opq p q)
  | .vstr s, .rstr t => .ok (opstr s t)
  | _, _ => .error "TypeError: ordered comparison between incompatible types"

def pdGt : PdVal → ReqVal → Except String Bool :=
  pdOrdScalar (fun x v => decide (v < x)) (fun s t => decide (t < s))
def pdLt : PdVal → ReqVal → Except String Bool :=
  pdOrdScalar (fun x v => decide (x < v)) (fun s t => decide (s < t))
def pdGe : PdVal → ReqVal → Except String Bool :=
  pdOrdScalar (fun x v => decide (v ≤ x)) (fun s t => decide (t ≤ s))
def pdLe : PdVal → ReqVal → Except String Bool :=
  pdOrdScalar (fun x v => decide (x ≤ v)) (fun s t => decide (s ≤ t))

/-- Boolean-mask row selection `df[mask]`: keeps rows whose predicate is
`True`, in original order; a comparison error anywhere fails the whole
selection, as the elementwise pandas operation raises before indexing. -/
def seriesFilterE (rows : List Row) (p : Row → Except String Bool) :
    Except String (List Row) :=
  match rows with
  | [] => .ok []
  | r :: rs => do
      let b ← p r
      let rest ← seriesFilterE rs p
      pure (if b then r :: rest else rest)

/-- The pydantic request body of the POST endpoints of `main.py`. -/
structure FilterRequest where
  column : String
  operator : String
  value : ReqVal
  value2 : Option ReqVal := none
  limit : Option Nat := some 1000

/-- `v.strip()` applied to every element of `value.split(",")`. -/
def splitStrip (s : String) : List String :=
  ((splitOnCharList ',' s.toList).map String.mk).map strTrim

/-- The `in` branch of `apply_filter`: a string is split on commas and
stripped, a list is used as is, a scalar makes pandas `isin` raise. -/
def inValues : ReqVal → Except String (List ReqVal)
  | .rstr s => .ok ((splitStrip s).map ReqVal.rstr)
  | .rlist l => .ok l
  | _ => .error "only list-like objects are allowed to be passed to isin()"

/-- The `filtered_df` computation of `apply_filter` (main.py lines 122-149):
operator dispatch producing the untruncated match list or an error. -/
def matchRows (df : DataFrame) (req : FilterRequest) :
    Except String (List Row) :=
  match df.colIdx req.column with
  | none => .error ("Coluna \x27" ++ req.column ++ "\x27 não existe")
  | some i =>
    let op := lowerStr req.operator
    if op == "eq" then
      match req.value with
      | .rlist _ => .error "Lengths must match to compare"
      | v => seriesFilterE df.rows (fun r => .ok (pdEqScalar (cellAt r i) v))
    else if op == "gt" then
      seriesFilterE df.rows (fun r => pdGt (cellAt r i) req.value)
    else if op == "lt" then
      seriesFilterE df.rows (fun r => pdLt (cellAt r i) req.value)
    else if op == "gte" then
      seriesFilterE df.rows (fun r => pdGe (cellAt r i) req.value)
    else if op == "lte" then
      seriesFilterE df.rows (fun r => pdLe (cellAt r i) req.value)
    else if op == "in" then
      match inValues req.value with
      | .error e => .error e
      | .ok vs =>
          seriesFilterE df.rows
            (fun r => .ok (vs.any (fun v => pdEqScalar (cellAt r i) v)))
    else if op == "between" then
      match req.value2 with
      | none => .error "Operação \x27between\x27 requer value2"
      | some v2 =>
          seriesFilterE df.rows (fun r => do
            let g ← pdGe (cellAt r i) req.value
            let l ← pdLe (cellAt r i) v2
            pure (g && l))
    else if op == "contains" then
      match pyReCompileCI req.value.pyStr with
      | .error e => .error e
      | .ok re =>
          seriesFilterE df.rows
            (fun r => .ok (reSearch re ((cellAt r i).astypeStr)))
    else .error ("Operador \x27" ++ op ++ "\x27 não suportado")

/-- Python truthiness of `filter_req.limit`: `None` and `0` are falsy, so the
source returns the whole match list for both. -/
def pyTruthyLimit : Option Nat → Option Nat
  | none => none
  | some 0 => none
  | some (n + 1) => some (n + 1)

/-- `filtered_df.head(limit) if filter_req.limit else filtered_df`. -/
def pyHead (lim : Option Nat) (rows : List Row) : List Row :=
  match pyTruthyLimit lim with
  | none => rows
  | some l => rows.take l

/-- `apply_filter` (main.py lines 114-154): operator dispatch, truncation by
`limit`, and the catch-all that turns any raised error into an
`HTTPException(400, "Erro no filtro: ...")`. -/
def apply_filter (df : DataFrame) (req : FilterRequest) :
    Except HttpError (List Row) :=
  match matchRows df req with
  | .ok fr => .ok (pyHead req.limit fr)
  | .error e => .error ⟨400, "Erro no filtro: " ++ e⟩

/-- Response body of the POST `/filter` handler (main.py lines 290-300). -/
structure PostFilterResponse where
  data : List Row
  filtered_count : Nat
  total_records : Nat
deriving DecidableEq, Repr

/-- POST `/filter` handler `filter_data` (main.py lines 266-303):
`filtered_count` is the length of the already-truncated result of
`apply_filter`; the untruncated match count is not reported. -/
def filter_data_post (df : DataFrame) (req : FilterRequest) :
    Except HttpError PostFilterResponse :=
  match apply_filter df req with
  | .ok fr => .ok ⟨fr, fr.length, df.rows.length⟩
  | .error e => .error e

/-- Response body of the GET `/filter` handler (main.py lines 638-643). -/
structure GetFilterResponse where
  total_matches : Nat
  returned_count : Nat
  data : List Row
deriving DecidableEq, Repr

/-- Whether a dtype is one of pandas `int64`/`float64` (the
`df[column].dtype in ['int64', 'float64']` test of the source). -/
def numericDtype (d : Dtype) : Bool := d == Dtype.int64 || d == Dtype.float64

/-- `[float(v) for v in values]` with Python short-circuit on the first
failing element. -/
def floatsOfStrings : List String → Except String (List ℚ)
  | [] => .ok []
  | s :: ss =>
      match pyFloatOfString s with
      | none => .error ("could not convert string to float: \x27" ++ s ++ "\x27")
      | some q => (floatsOfStrings ss).map (fun qs => q :: qs)

/-- A raw Python error (`ValueError` from a failing `float`, `TypeError`
from a mixed-type comparison) escaping the GET handler lands in its final
catch-all, which re-raises it as a 500 with this prefix (main.py line 648);
`HTTPException`s raised inside the handler pass through unchanged. -/
def getCatchAll : Except String (List Row) → Except HttpError (List Row)
  | .ok rs => .ok rs
  | .error e => .error ⟨500, "Erro ao filtrar dados: " ++ e⟩

/-- The `df_filtered` computation of the GET `/filter` handler
(main.py lines 585-628): per-operator coercion of the string query value,
then the boolean-mask selection.  The HTTP status of each failure is
determined at its raise site, exactly as in the handler: explicit
`HTTPException(400, ...)` for the guarded coercions and operator checks,
the 500 catch-all for uncaught `ValueError`/`TypeError`. -/
def getMatchRows (df : DataFrame) (i : Nat) (dt : Dtype)
    (operator value : String) : Except HttpError (List Row) :=
  if operator == "eq" then
    if numericDtype dt then
      match pyFloatOfString value with
      | none =>
          .error ⟨400, "Valor \x27" ++ value ++ "\x27 inválido para coluna numérica"⟩
      | some q =>
          let v : ReqVal :=
            if dt == Dtype.int64 then .rint (pyIntOfFloat q) else .rfloat q
          getCatchAll (seriesFilterE df.rows (fun r => .ok (pdEqScalar (cellAt r i) v)))
    else
      getCatchAll (seriesFilterE df.rows (fun r => .ok (pdEqScalar (cellAt r i) (.rstr value))))
  else if operator == "gt" then
    match pyFloatOfString value with
    | none => .error ⟨500, "Erro ao filtrar dados: could not convert string to float: \x27" ++ value ++ "\x27"⟩
    | some q => getCatchAll (seriesFilterE df.rows (fun r => pdGt (cellAt r i) (.rfloat q)))
  else if operator == "lt" then
    match pyFloatOfString value with
    | none => .error ⟨500, "Erro ao filtrar dados: could not convert string to float: \x27" ++ value ++ "\x27"⟩
    | some q => getCatchAll (seriesFilterE df.rows (fun r => pdLt (cellAt r i) (.rfloat q)))
  else if operator == "gte" then
    match pyFloatOfString value with
    | none => .error ⟨500, "Erro ao filtrar dados: could not convert string to float: \x27" ++ value ++ "\x27"⟩
    | some q => getCatchAll (seriesFilterE df.rows (fun r => pdGe (cellAt r i) (.rfloat q)))
  else if operator == "lte" then
    match pyFloatOfString value with
    | none => .error ⟨500, "Erro ao filtrar dados: could not convert string to float: \x27" ++ value ++ "\x27"⟩
    | some q => getCatchAll (seriesFilterE df.rows (fun r => pdLe (cellAt r i) (.rfloat q)))
  else if operator == "in" then
    let strs := splitStrip value
    if numericDtype dt then
      match floatsOfStrings strs with
      | .error e => .error ⟨500, "Erro ao filtrar dados: " ++ e⟩
      | .ok qs =>
          let vs : List ReqVal :=
            if dt == Dtype.int64 then qs.map (fun q => .rint (pyIntOfFloat q))
            else qs.map ReqVal.rfloat
          getCatchAll (seriesFilterE df.rows
            (fun r => .ok (vs.any (fun v => pdEqScalar (cellAt r i) v))))
    else
      getCatchAll (seriesFilterE df.rows
        (fun r => .ok ((strs.map ReqVal.rstr).any
          (fun v => pdEqScalar (cellAt r i) v))))
  else if operator == "contains" then
    if dt == Dtype.object then
      match pyReCompileCI value with
      | .error e => .error ⟨500, "Erro ao filtrar dados: " ++ e⟩
      | .ok re =>
          getCatchAll (seriesFilterE df.rows (fun r => .ok
            (match cellAt r i with
             | .vstr s => reSearch re s
             | _ => false)))
    else .error ⟨400, "Operador \x27contains\x27 só funciona com colunas de texto"⟩
  else .error ⟨400, "Operador \x27" ++ operator ++ "\x27 não suportado"⟩

/-- GET `/filter` handler `filter_data` (main.py lines 569-648):
`total_matches` is the length of the untruncated match list and `data` is its
`limit`-prefix (`limit` is validated into `1..10000` by FastAPI). -/
def filter_data_get (df : DataFrame) (column operator value : String)
    (limit : Nat) : Except HttpError GetFilterResponse :=
  match df.colIdx column with
  | none => .error ⟨400, "Coluna \x27" ++ column ++ "\x27 não encontrada"⟩
  | some i =>
      match getMatchRows df i (df.dtypeAt i) operator value with
      | .error e => .error e
      | .ok fr => .ok ⟨fr.length, (fr.take limit).length, fr.take limit⟩

/-- Process state of the API module: the `DATA_CACHE` dict (its `"main_df"`
entry) and a counter of storage reads performed so far.  `storage` below is
the dataset the candidate-path search would produce, `none` when no parquet
file is readable. -/
structure ApiState where
  cache : Option DataFrame
  reads : Nat
deriving DecidableEq, Repr

/-- The first `load_parquet_data` (main.py lines 39-112): returns the cached
frame when present, otherwise reads storage once and populates the cache. -/
def load_v1 (storage : Option DataFrame) (s : ApiState) :
    ApiState × Except HttpError DataFrame :=
  match s.cache with
  | some df => (s, .ok df)
  | none =>
      match storage with
      | some df => (⟨some df, s.reads + 1⟩, .ok df)
      | none =>
          (⟨none, s.reads + 1⟩,
           .error ⟨500, "Erro ao carregar dados: Nenhum arquivo Parquet encontrado"⟩)

/-- The second `load_parquet_data` (main.py lines 427-457): no cache lookup
and no cache store — storage is read on every call. -/
def load_v2 (storage : Option DataFrame) (s : ApiState) :
    ApiState × Except HttpError DataFrame :=
  match storage with
  | some df => (⟨s.cache, s.reads + 1⟩, .ok df)
  | none =>
      (⟨s.cache, s.reads + 1⟩,
       .error ⟨500, "Erro ao carregar dados: Nenhum arquivo Parquet encontrado"⟩)

/-- The name `load_parquet_data` as the handlers resolve it at call time:
Python binds a module-level name to its last definition, so the second,
cache-less version (line 427) shadows the caching one (line 39). -/
def load_parquet_data : Option DataFrame → ApiState →
    ApiState × Except HttpError DataFrame := load_v2

/-- State after `n` successive calls to a loader within one process. -/
def iterLoads
    (f : Option DataFrame → ApiState → ApiState × Except HttpError DataFrame)
    (storage : Option DataFrame) : Nat → ApiState → ApiState
  | 0, s => s
  | n + 1, s => iterLoads f storage n (f storage s).1

end TaxiApi

namespace Consolidate

/-- One `chunk_*` folder as `consolidate_chunks.py` sees it: its name, whether
`glob` finds a parquet file inside, and the rows of the first parquet file
(`none` models a read raising, which the loop swallows with `continue`). -/
structure ChunkFolder where
  name : String
  hasParquet : Bool
  content : Option (List (List Int))
deriving DecidableEq, Repr

/-- A folder the loop actually consumes: it has a parquet file and the read
succeeds. -/
def readableChunk (f : ChunkFolder) : Bool := f.hasParquet && f.content.isSome

/-- `sorted(chunk_folders)` — insertion sort by folder name. -/
def insertByName (f : ChunkFolder) : List ChunkFolder → List ChunkFolder
  | [] => [f]
  | g :: gs =>
      if f.name ≤ g.name then f :: g :: gs else g :: insertByName f gs

def sortByName : List ChunkFolder → List ChunkFolder
  | [] => []
  | f :: fs => insertByName f (sortByName fs)

/-- The per-chunk loop (consolidate_chunks.py lines 35-61): a readable chunk
is appended to `all_data` and its folder is deleted immediately
(`shutil.rmtree` before any output exists); folders without parquet files or
with failing reads are skipped and kept.  Returns the collected chunk data
together with the names of the deleted folders. -/
def processChunks : List ChunkFolder → List (List (List Int)) × List String
  | [] => ([], [])
  | f :: fs =>
      let rest := processChunks fs
      if f.hasParquet then
        match f.content with
        | some rows => (rows :: rest.1, f.name :: rest.2)
        | none => rest
      else rest

/-- Result of one run: which chunk folders were deleted, and the consolidated
output file (path and rows), `none` when the run produced no output. -/
structure ConsolidateOutcome where
  deleted : List String
  output : Option (String × List (List Int))
deriving DecidableEq, Repr

/-- `consolidate_chunks_and_cleanup` (consolidate_chunks.py lines 8-94):
iterates the sorted chunk folders deleting each one right after reading it,
then concatenates and writes `PARQUET_PATH + "_consolidated.parquet"`.
`writeOk` models whether `pd.concat`/`to_parquet` succeeds; on failure the
function returns `None` with no output file — but the chunks are already
gone. -/
def consolidate_chunks_and_cleanup (parquetPath : String)
    (folders : List ChunkFolder) (writeOk : Bool) : ConsolidateOutcome :=
  let p := processChunks (sortByName folders)
  if p.1.isEmpty then ⟨p.2, none⟩
  else if writeOk then
    ⟨p.2, some (parquetPath ++ "_consolidated.parquet", p.1.flatten)⟩
  else ⟨p.2, none⟩

end Consolidate

namespace SparkJob

/-- Spark SQL three-valued boolean: true, false, null. -/
inductive TBool
  | tt
  | ff
  | nn
deriving DecidableEq, Repr

/-- Three-valued conjunction (`&` between Spark columns). -/
def tand : TBool → TBool → TBool
  | .ff, _ => .ff
  | _, .ff => .ff
  | .tt, .tt => .tt
  | _, _ => .nn

/-- `col.isNotNull()`. -/
def notNullT {α : Type} : Option α → TBool
  | some _ => .tt
  | none => .ff

/-- A comparison of a nullable column against a literal: null yields null. -/
def cmpT {α : Type} (f : α → Bool) : Option α → TBool
  | some x => if f x then .tt else .ff
  | none => .nn

/-- A comparison between two nullable columns: any null yields null. -/
def cmp2T {α : Type} (f : α → α → Bool) : Option α → Option α → TBool
  | some x, some y => if f x y then .tt else .ff
  | _, _ => .nn

/-- `col.isin([...])` on a nullable column. -/
def isinT {α : Type} [BEq α] (vals : List α) : Option α → TBool
  | some x => if vals.contains x then .tt else .ff
  | none => .nn

/-- One raw CSV row under the fixed 17-field schema of `spark_job.py`
(lines 30-48); every field is nullable. -/
structure RawRow where
  VendorID : Option Int
  tpep_pickup_datetime : Option String
  tpep_dropoff_datetime : Option String
  passenger_count : Option Int
  trip_distance : Option ℚ
  RatecodeID : Option Int
  store_and_fwd_flag : Option String
  PULocationID : Option Int
  DOLocationID : Option Int
  payment_type : Option Int
  fare_amount : Option ℚ
  extra : Option ℚ
  mta_tax : Option ℚ
  tip_amount : Option ℚ
  tolls_amount : Option ℚ
  improvement_surcharge : Option ℚ
  total_amount : Option ℚ
deriving DecidableEq, Repr

/-- The `df_filtered_early` predicate (spark_job.py lines 64-77), with the
source's conjuncts in order under three-valued logic. -/
def validityCond (r : RawRow) : TBool :=
  tand (notNullT r.tpep_pickup_datetime)
  (tand (notNullT r.tpep_dropoff_datetime)
  (tand (notNullT r.passenger_count)
  (tand (notNullT r.trip_distance)
  (tand (notNullT r.fare_amount)
  (tand (cmpT (fun x => decide (1 ≤ x)) r.passenger_count)
  (tand (cmpT (fun x => decide (x ≤ 8)) r.passenger_count)
  (tand (cmpT (fun x => decide (0 < x)) r.trip_distance)
  (tand (cmpT (fun x => decide (x < 500)) r.trip_distance)
  (tand (cmpT (fun x => decide (0 < x)) r.fare_amount)
  (tand (cmpT (fun x => decide (x < 1000)) r.fare_amount)
  (tand (cmpT (fun x => decide (0 < x)) r.total_amount)
  (tand (cmpT (fun x => decide (x < 1000)) r.total_amount)
  (tand (cmpT (fun x => decide (0 ≤ x)) r.tip_amount)
  (tand (isinT [(1 : Int), 2, 3, 4, 5, 6] r.RatecodeID)
        (isinT [(1 : Int), 2, 3, 4, 5, 6] r.payment_type)))))))))))))))

/-- A Spark `filter` keeps a row exactly when its condition is true (not
false and not null). -/
def validityFilter (r : RawRow) : Bool := validityCond r == TBool.tt

/-- The ValidityFilter stage applied to a batch of raw rows. -/
def validity_stage (rows : List RawRow) : List RawRow :=
  rows.filter validityFilter

/-- A row after the timestamp parse (`to_timestamp` replaces the two raw
string columns by timestamps, here unix seconds). -/
structure TsRow where
  VendorID : Option Int
  tpep_pickup_datetime : Option Int
  tpep_dropoff_datetime : Option Int
  passenger_count : Option Int
  trip_distance : Option ℚ
  RatecodeID : Option Int
  store_and_fwd_flag : Option String
  PULocationID : Option Int
  DOLocationID : Option Int
  payment_type : Option Int
  fare_amount : Option ℚ
  extra : Option ℚ
  mta_tax : Option ℚ
  tip_amount : Option ℚ
  tolls_amount : Option ℚ
  improvement_surcharge : Option ℚ
  total_amount : Option ℚ
deriving DecidableEq, Repr

/-- External Spark builtins the job calls: `to_timestamp` with the fixed
format `MM/dd/yyyy hh:mm:ss a` (parse failure gives null), and the calendar
functions `year`, `hour`, `dayofweek`, `month` on a timestamp. -/
structure SparkEnv where
  parseTs : String → Option Int
  yearOf : Int → Int
  hourOf : Int → Int
  dayOfWeekOf : Int → Int
  monthOf : Int → Int

/-- The two `withColumn`/`to_timestamp` steps (spark_job.py lines 81-87):
null input stays null, parse failure becomes null. -/
def parseRow (env : SparkEnv) (r : RawRow) : TsRow :=
  { VendorID := r.VendorID
    tpep_pickup_datetime := r.tpep_pickup_datetime.bind env.parseTs
    tpep_dropoff_datetime := r.tpep_dropoff_datetime.bind env.parseTs
    passenger_count := r.passenger_count
    trip_distance := r.trip_distance
    RatecodeID := r.RatecodeID
    store_and_fwd_flag := r.store_and_fwd_flag
    PULocationID := r.PULocationID
    DOLocationID := r.DOLocationID
    payment_type := r.payment_type
    fare_amount := r.fare_amount
    extra := r.extra
    mta_tax := r.mta_tax
    tip_amount := r.tip_amount
    tolls_amount := r.tolls_amount
    improvement_surcharge := r.improvement_surcharge
    total_amount := r.total_amount }

/-- The `df_date_filtered` predicate (spark_job.py lines 90-96): both
timestamps non-null, pickup strictly before dropoff, both in 2018. -/
def dateCond (env : SparkEnv) (t : TsRow) : TBool :=
  tand (notNullT t.tpep_pickup_datetime)
  (tand (notNullT t.tpep_dropoff_datetime)
  (tand (cmp2T (fun p d => decide (p < d))
          t.tpep_pickup_datetime t.tpep_dropoff_datetime)
  (tand (cmpT (fun p => decide (env.yearOf p = 2018)) t.tpep_pickup_datetime)
        (cmpT (fun d => decide (env.yearOf d = 2018)) t.tpep_dropoff_datetime))))

/-- The DateFilter stage. -/
def date_stage (env : SparkEnv) (rows : List TsRow) : List TsRow :=
  rows.filter (fun t => dateCond env t == TBool.tt)

/-- A row with the six derived columns of `df_enriched`. -/
structure EnrichedRow where
  base : TsRow
  trip_duration_minutes : Option ℚ
  pickup_hour : Option Int
  pickup_day_of_week : Option Int
  pickup_month : Option Int
  speed_mph : Option ℚ
  tip_percentage : Option ℚ
deriving DecidableEq, Repr

/-- The chained `withColumn` derivations (spark_job.py lines 99-118).
`trip_duration_minutes` is `(unix(dropoff) - unix(pickup)) / 60`;
`speed_mph` is `when(duration > 0, distance / (duration / 60)).otherwise(0)`
(a null or non-positive condition selects the `otherwise` literal, a null
operand inside the chosen branch propagates); `tip_percentage` is
`when(fare > 0, tip / fare * 100).otherwise(0)`. -/
def enrich (env : SparkEnv) (t : TsRow) : EnrichedRow :=
  let dur : Option ℚ :=
    match t.tpep_pickup_datetime, t.tpep_dropoff_datetime with
    | some p, some d => some (((d - p : Int) : ℚ) / 60)
    | _, _ => none
  let speed : Option ℚ :=
    match dur with
    | some q =>
        if 0 < q then
          match t.trip_distance with
          | some dist => some (dist / (q / 60))
          | none => none
        else some 0
    | none => some 0
  let tipPct : Option ℚ :=
    match t.fare_amount with
    | some f =>
        if 0 < f then
          match t.tip_amount with
          | some tp => some (tp / f * 100)
          | none => none
        else some 0
    | none => some 0
  { base := t
    trip_duration_minutes := dur
    pickup_hour := t.tpep_pickup_datetime.map env.hourOf
    pickup_day_of_week := t.tpep_pickup_datetime.map env.dayOfWeekOf
    pickup_month := t.tpep_pickup_datetime.map env.monthOf
    speed_mph := speed
    tip_percentage := tipPct }

/-- The `df_final` predicate (spark_job.py lines 121-125). -/
def rangeCond (e : EnrichedRow) : TBool :=
  tand (cmpT (fun q => decide (1 ≤ q)) e.trip_duration_minutes)
  (tand (cmpT (fun q => decide (q ≤ 480)) e.trip_duration_minutes)
  (tand (cmpT (fun q => decide (0 ≤ q)) e.speed_mph)
  (tand (cmpT (fun q => decide (q ≤ 80)) e.speed_mph)
  (tand (cmpT (fun q => decide (0 ≤ q)) e.tip_percentage)
        (cmpT (fun q => decide (q ≤ 50)) e.tip_percentage)))))

/-- The RangeFilter stage. -/
def range_stage (rows : List EnrichedRow) : List EnrichedRow :=
  rows.filter (fun e => rangeCond e == TBool.tt)

/-- The whole cleaning pipeline in the stage order of the script:
ValidityFilter, timestamp parse, DateFilter, enrichment, RangeFilter. -/
def pipeline (env : SparkEnv) (rows : List RawRow) : List EnrichedRow :=
  range_stage
    (((date_stage env ((validity_stage rows).map (parseRow env))).map
      (enrich env)))

end SparkJob

namespace TaxiApi

/-- Numeric view of a cell (ints and floats compare as rationals). -/
def cellNum : PdVal → Option ℚ
  | .vint i => some (i : ℚ)
  | .vfloat q => some q
  | _ => none

/-- Cell kinds that can live in a numeric (int64/float64) pandas column:
integers, floats and NaN. -/
def numOrNull : PdVal → Bool
  | .vint _ => true
  | .vfloat _ => true
  | .vnull => true
  | _ => false

/-- Match list of the GET `contains` branch on an `object` column for a
successfully compiled pattern: only string cells can match, nulls never do. -/
def getContainsMatches (df : DataFrame) (i : Nat) (re : ReAst) : List Row :=
  df.rows.filter (fun r =>
    match cellAt r i with
    | .vstr s => reSearch re s
    | _ => false)

/-- Concrete inputs used to instantiate the theorems below. -/
def exDfEmpty : DataFrame := ⟨[], []⟩

def exDfFare : DataFrame := ⟨[("fare", .int64)], [[.vint 3], [.vint 7]]⟩

def exDfSeq : DataFrame := ⟨[("n", .int64)], [[.vint 1], [.vint 2], [.vint 3]]⟩

def exDfContainsNum : DataFrame :=
  ⟨[("n", .int64)], [[.vint 1], [.vint 12], [.vnull]]⟩

def exDfContainsStr : DataFrame := ⟨[("s", .object)], [[.vstr "xy"], [.vnull]]⟩

def exDfReStr : DataFrame := ⟨[("s", .object)], [[.vstr "xyz"]]⟩

end TaxiApi

namespace Consolidate

/-- A single readable chunk folder, for instantiating the theorems below. -/
def exFolder : ChunkFolder := ⟨"chunk_0", true, some [[1], [2]]⟩

end Consolidate

namespace SparkJob

/-- A concrete instantiation of the external Spark builtins, for the
witnesses: a two-point timestamp parser and constant calendar functions. -/
def env0 : SparkEnv :=
  { parseTs := fun s =>
      if s = "100" then some 100 else if s = "6100" then some 6100 else none
    yearOf := fun _ => 2018
    hourOf := fun _ => 0
    dayOfWeekOf := fun _ => 0
    monthOf := fun _ => 0 }

/-- A raw row that passes every validity bound except `passenger_count = 9`. -/
def row9 : RawRow :=
  { VendorID := some 1
    tpep_pickup_datetime := some "100"
    tpep_dropoff_datetime := some "6100"
    passenger_count := some 9
    trip_distance := some 10
    RatecodeID := some 1
    store_and_fwd_flag := some "N"
    PULocationID := some 1
    DOLocationID := some 2
    payment_type := some 1
    fare_amount := some 10
    extra := some 0
    mta_tax := some 0
    tip_amount := some 0
    tolls_amount := some 0
    improvement_surcharge := some 0
    total_amount := some 20 }

/-- A valid raw row whose pickup and dropoff parse to the same instant. -/
def rowEq : RawRow :=
  { row9 with passenger_count := some 1, tpep_dropoff_datetime := some "100" }

/-- A raw row that survives the whole pipeline under `env0`
(100 minutes, 10 miles, 6 mph). -/
def goodRow : RawRow := { row9 with passenger_count := some 1 }

/-- `goodRow` after the timestamp parse. -/
def goodTs : TsRow := parseRow env0 goodRow

/-- `rowEq` after the timestamp parse: pickup equals dropoff. -/
def tsEq : TsRow := parseRow env0 rowEq

end SparkJob

namespace TaxiApi

theorem seriesFilterE_eq_filter (rows : List Row) (q : Row → Except String Bool)
    (p : Row → Bool) (h : ∀ r ∈ rows, q r = .ok (p r)) :
    seriesFilterE rows q = .ok (rows.filter p) := by
  induction rows with
  | nil => rfl
  | cons r rs ih =>
      have hr := h r (List.mem_cons_self r rs)
      have hs : ∀ x ∈ rs, q x = .ok (p x) :=
        fun x hx => h x (List.mem_cons_of_mem r hx)
      simp only [seriesFilterE, hr, ih hs, List.filter_cons, bind, Except.bind,
        pure, Except.pure]

theorem matchRows_eq_rstr (df : DataFrame) (c : String) (i : Nat) (s : String)
    (v2 : Option ReqVal) (lim : Option Nat) (hci : df.colIdx c = some i) :
    matchRows df ⟨c, "eq", .rstr s, v2, lim⟩ =
      seriesFilterE df.rows
        (fun r => .ok (pdEqScalar (cellAt r i) (.rstr s))) := by
  unfold matchRows
  rw [hci]
  rfl

theorem matchRows_gte (df : DataFrame) (c : String) (i : Nat) (v : ReqVal)
    (v2 : Option ReqVal) (lim : Option Nat) (hci : df.colIdx c = some i) :
    matchRows df ⟨c, "gte", v, v2, lim⟩ =
      seriesFilterE df.rows (fun r => pdGe (cellAt r i) v) := by
  unfold matchRows
  rw [hci]
  rfl

theorem matchRows_lte (df : DataFrame) (c : String) (i : Nat) (v : ReqVal)
    (v2 : Option ReqVal) (lim : Option Nat) (hci : df.colIdx c = some i) :
    matchRows df ⟨c, "lte", v, v2, lim⟩ =
      seriesFilterE df.rows (fun r => pdLe (cellAt r i) v) := by
  unfold matchRows
  rw [hci]
  rfl

theorem matchRows_between_some (df : DataFrame) (c : String) (i : Nat)
    (v w : ReqVal) (lim : Option Nat) (hci : df.colIdx c = some i) :
    matchRows df ⟨c, "between", v, some w, lim⟩ =
      seriesFilterE df.rows (fun r => do
        let g ← pdGe (cellAt r i) v
        let l ← pdLe (cellAt r i) w
        pure (g && l)) := by
  unfold matchRows
  rw [hci]
  rfl

theorem matchRows_between_none (df : DataFrame) (c : String) (i : Nat)
    (v : ReqVal) (lim : Option Nat) (hci : df.colIdx c = some i) :
    matchRows df ⟨c, "between", v, none, lim⟩ =
      .error "Operação \x27between\x27 requer value2" := by
  unfold matchRows
  rw [hci]
  rfl

theorem matchRows_contains (df : DataFrame) (c : String) (i : Nat)
    (v : ReqVal) (v2 : Option ReqVal) (lim : Option Nat)
    (hci : df.colIdx c = some i) :
    matchRows df ⟨c, "contains", v, v2, lim⟩ =
      (match pyReCompileCI v.pyStr with
       | .error e => .error e
       | .ok re =>
           seriesFilterE df.rows
             (fun r => .ok (reSearch re ((cellAt r i).astypeStr)))) := by
  unfold matchRows
  rw [hci]
  rfl

theorem pdGe_numOrNull (cell : PdVal) (q : ℚ) (h : numOrNull cell = true) :
    pdGe cell (.rfloat q) =
      .ok ((cellNum cell).elim false (fun x => decide (q ≤ x))) := by
  cases cell <;> simp_all [numOrNull, pdGe, pdOrdScalar, cellNum]

theorem pdLe_numOrNull (cell : PdVal) (q : ℚ) (h : numOrNull cell = true) :
    pdLe cell (.rfloat q) =
      .ok ((cellNum cell).elim false (fun x => decide (x ≤ q))) := by
  cases cell <;> simp_all [numOrNull, pdLe, pdOrdScalar, cellNum]

theorem between_cell (cell : PdVal) (a b : ℚ) (h : numOrNull cell = true) :
    (do
      let g ← pdGe cell (.rfloat a)
      let l ← pdLe cell (.rfloat b)
      pure (g && l) : Except String Bool) =
    .ok ((cellNum cell).elim false (fun x => decide (a ≤ x ∧ x ≤ b))) := by
  cases cell <;>
    simp_all [pdGe, pdLe, pdOrdScalar, cellNum, numOrNull, bind, Except.bind,
      pure, Except.pure, Bool.decide_and]

theorem pyHead_nil (lim : Option Nat) : pyHead lim [] = [] := by
  unfold pyHead
  cases pyTruthyLimit lim <;> simp

end TaxiApi

namespace TaxiApi

/-- Claim C7: for numeric bounds `a ≤ b` on a numeric column, the `between`
filter of `apply_filter` matches exactly the rows with
`a ≤ column value ≤ b` (inclusive on both ends, nulls excluded), its match
set equals applying the `gte a` filter followed by the `lte b` filter, and a
`between` request without `value2` fails with the 400 missing-bound error. -/
theorem between_spec (df : DataFrame) (c : String) (i : Nat) (a b : ℚ)
    (lim : Option Nat)
    (hci : df.colIdx c = some i)
    (hnum : ∀ r ∈ df.rows, numOrNull (cellAt r i) = true)
    (hab : a ≤ b) :
    matchRows df ⟨c, "between", .rfloat a, some (.rfloat b), lim⟩ =
      .ok (df.rows.filter (fun r =>
        (cellNum (cellAt r i)).elim false (fun x => decide (a ≤ x ∧ x ≤ b)))) ∧
    matchRows df ⟨c, "between", .rfloat a, some (.rfloat b), lim⟩ =
      (matchRows df ⟨c, "gte", .rfloat a, none, lim⟩).bind
        (fun g => matchRows ⟨df.cols, g⟩ ⟨c, "lte", .rfloat b, none, lim⟩) ∧
    apply_filter df ⟨c, "between", .rfloat a, none, lim⟩ =
      .error ⟨400, "Erro no filtro: Operação \x27between\x27 requer value2"⟩ := by
  have h1 : matchRows df ⟨c, "between", .rfloat a, some (.rfloat b), lim⟩ =
      .ok (df.rows.filter (fun r =>
        (cellNum (cellAt r i)).elim false
          (fun x => decide (a ≤ x ∧ x ≤ b)))) := by
    rw [matchRows_between_some df c i _ _ lim hci]
    exact seriesFilterE_eq_filter _ _ _
      (fun r hr => between_cell _ a b (hnum r hr))
  refine ⟨h1, ?_, ?_⟩
  · rw [h1, matchRows_gte df c i _ none lim hci,
      seriesFilterE_eq_filter df.rows _
        (fun r => (cellNum (cellAt r i)).elim false (fun x => decide (a ≤ x)))
        (fun r hr => pdGe_numOrNull _ a (hnum r hr))]
    have hci2 : DataFrame.colIdx
        ⟨df.cols, df.rows.filter (fun r =>
          (cellNum (cellAt r i)).elim false (fun x => decide (a ≤ x)))⟩ c =
        some i := hci
    simp only [Except.bind]
    rw [matchRows_lte _ c i _ none lim hci2,
      seriesFilterE_eq_filter _ _
        (fun r => (cellNum (cellAt r i)).elim false (fun x => decide (x ≤ b)))
        (fun r hr => pdLe_numOrNull _ b (hnum r (List.mem_of_mem_filter hr)))]
    rw [List.filter_filter]
    congr 1
    apply List.filter_congr
    intro r hr
    cases hcn : cellNum (cellAt r i) with
    | none => simp
    | some x => simp [Bool.decide_and, Bool.and_comm]
  · unfold apply_filter
    rw [matchRows_between_none df c i _ lim hci]
    rfl

/-- Witness for C7 at a concrete frame: `between(1, 2)` on an int column
keeps exactly the rows with value in `[1, 2]`, and dropping `value2` gives
the 400 error. -/
theorem between_spec_witness :
    matchRows exDfSeq ⟨"n", "between", .rfloat 1, some (.rfloat 2), some 10⟩ =
      .ok (exDfSeq.rows.filter (fun r =>
        (cellNum (cellAt r 0)).elim false
          (fun x => decide ((1 : ℚ) ≤ x ∧ x ≤ 2)))) ∧
    apply_filter exDfSeq ⟨"n", "between", .rfloat 1, none, some 10⟩ =
      .error ⟨400, "Erro no filtro: Operação \x27between\x27 requer value2"⟩ :=
  ⟨(between_spec exDfSeq "n" 0 1 2 (some 10) (by decide) (by decide)
      (by decide)).1,
   (between_spec exDfSeq "n" 0 1 2 (some 10) (by decide) (by decide)
      (by decide)).2.2⟩

end TaxiApi

namespace TaxiApi

/-- Claim C2 counterexample: on a three-row frame, `gte 2` matches two rows,
yet with `limit = 1` the POST `/filter` response reports
`filtered_count = 1` — the truncated size, not the untruncated match count
of 2 (and `total_records = 3` is the dataset size, not the match count). -/
theorem post_filter_count_counterexample :
    filter_data_post exDfSeq ⟨"n", "gte", .rint 2, none, some 1⟩ =
      .ok ⟨[[.vint 2]], 1, 3⟩ ∧
    matchRows exDfSeq ⟨"n", "gte", .rint 2, none, some 1⟩ =
      .ok [[.vint 2], [.vint 3]] := by decide

/-- Claim C2 (amended): both filter paths return at most `limit` rows and
those rows are the prefix, in original order, of the untruncated match list;
the GET path's `total_matches` is the untruncated match count, but the POST
path's `filtered_count` is the length of the truncated result,
`min limit match_count`; a POST `limit` of 0 is falsy in Python and disables
truncation entirely. -/
theorem filter_limit_prefix_counts :
    (∀ (df : DataFrame) (req : FilterRequest) (L : List Row) (m : Nat),
       matchRows df req = .ok L → pyTruthyLimit req.limit = some m →
       filter_data_post df req =
         .ok ⟨L.take m, (L.take m).length, df.rows.length⟩ ∧
       (L.take m).length = min m L.length ∧
       L.take m ++ L.drop m = L) ∧
    (∀ (df : DataFrame) (req : FilterRequest) (L : List Row),
       matchRows df req = .ok L → req.limit = some 0 →
       filter_data_post df req = .ok ⟨L, L.length, df.rows.length⟩) ∧
    (∀ (df : DataFrame) (column oper value : String) (i : Nat) (lim : Nat)
       (F : List Row),
       df.colIdx column = some i →
       getMatchRows df i (df.dtypeAt i) oper value = .ok F →
       filter_data_get df column oper value lim =
         .ok ⟨F.length, (F.take lim).length, F.take lim⟩ ∧
       (F.take lim).length ≤ lim ∧
       F.take lim ++ F.drop lim = F) := by
  refine ⟨?_, ?_, ?_⟩
  · intro df req L m hm hl
    refine ⟨?_, List.length_take m L, List.take_append_drop m L⟩
    unfold filter_data_post apply_filter pyHead
    rw [hm, hl]
  · intro df req L hm hl
    unfold filter_data_post apply_filter pyHead
    rw [hm, hl]
    rfl
  · intro df column oper value i lim F hci hF
    refine ⟨?_, ?_, List.take_append_drop lim F⟩
    · unfold filter_data_get
      rw [hci]
      simp only [hF]
    · rw [List.length_take]
      exact Nat.min_le_left lim F.length

/-- Witness for C2 (amended) at a concrete frame: `gte 1` with limit 2
returns the 2-row prefix of the 3 matches, and the GET path reports
`total_matches = 3` alongside the same 2-row prefix. -/
theorem filter_limit_prefix_counts_witness :
    filter_data_post exDfSeq ⟨"n", "gte", .rint 1, none, some 2⟩ =
      .ok ⟨([[.vint 1], [.vint 2], [.vint 3]] : List Row).take 2,
           (([[.vint 1], [.vint 2], [.vint 3]] : List Row).take 2).length, 3⟩ ∧
    filter_data_get exDfSeq "n" "gte" "1" 2 =
      .ok ⟨([[.vint 1], [.vint 2], [.vint 3]] : List Row).length,
           (([[.vint 1], [.vint 2], [.vint 3]] : List Row).take 2).length,
           ([[.vint 1], [.vint 2], [.vint 3]] : List Row).take 2⟩ :=
  ⟨(filter_limit_prefix_counts.1 exDfSeq ⟨"n", "gte", .rint 1, none, some 2⟩
      [[.vint 1], [.vint 2], [.vint 3]] 2 (by decide) (by decide)).1,
   (filter_limit_prefix_counts.2.2 exDfSeq "n" "gte" "1" 0 2
      [[.vint 1], [.vint 2], [.vint 3]] (by decide) (by decide)).1⟩

end TaxiApi

namespace TaxiApi

theorem filter_data_get_some (df : DataFrame) (column oper value : String)
    (lim i : Nat) (hci : df.colIdx column = some i) :
    filter_data_get df column oper value lim =
      (match getMatchRows df i (df.dtypeAt i) oper value with
       | .error e => .error e
       | .ok fr => .ok ⟨fr.length, (fr.take lim).length, fr.take lim⟩) := by
  unfold filter_data_get
  rw [hci]

theorem getMatchRows_eq_shape (df : DataFrame) (i : Nat) (dt : Dtype)
    (value : String) :
    getMatchRows df i dt "eq" value =
      (if numericDtype dt then
        match pyFloatOfString value with
        | none =>
            .error ⟨400, "Valor \x27" ++ value ++ "\x27 inválido para coluna numérica"⟩
        | some q =>
            let v : ReqVal :=
              if dt == Dtype.int64 then .rint (pyIntOfFloat q) else .rfloat q
            getCatchAll (seriesFilterE df.rows
              (fun r => .ok (pdEqScalar (cellAt r i) v)))
       else
        getCatchAll (seriesFilterE df.rows
          (fun r => .ok (pdEqScalar (cellAt r i) (.rstr value))))) := rfl

theorem getMatchRows_gt_shape (df : DataFrame) (i : Nat) (dt : Dtype)
    (value : String) :
    getMatchRows df i dt "gt" value =
      (match pyFloatOfString value with
       | none =>
           .error ⟨500, "Erro ao filtrar dados: could not convert string to float: \x27"
             ++ value ++ "\x27"⟩
       | some q =>
           getCatchAll (seriesFilterE df.rows
             (fun r => pdGt (cellAt r i) (.rfloat q)))) := rfl

theorem getMatchRows_in_shape (df : DataFrame) (i : Nat) (dt : Dtype)
    (value : String) :
    getMatchRows df i dt "in" value =
      (if numericDtype dt then
        match floatsOfStrings (splitStrip value) with
        | .error e => .error ⟨500, "Erro ao filtrar dados: " ++ e⟩
        | .ok qs =>
            let vs : List ReqVal :=
              if dt == Dtype.int64 then qs.map (fun q => .rint (pyIntOfFloat q))
              else qs.map ReqVal.rfloat
            getCatchAll (seriesFilterE df.rows
              (fun r => .ok (vs.any (fun v => pdEqScalar (cellAt r i) v))))
       else
        getCatchAll (seriesFilterE df.rows
          (fun r => .ok (((splitStrip value).map ReqVal.rstr).any
            (fun v => pdEqScalar (cellAt r i) v))))) := rfl

theorem getMatchRows_contains_shape (df : DataFrame) (i : Nat) (dt : Dtype)
    (value : String) :
    getMatchRows df i dt "contains" value =
      (if dt == Dtype.object then
        match pyReCompileCI value with
        | .error e => .error ⟨500, "Erro ao filtrar dados: " ++ e⟩
        | .ok re =>
            getCatchAll (seriesFilterE df.rows (fun r => .ok
              (match cellAt r i with
               | .vstr s => reSearch re s
               | _ => false)))
       else
        .error ⟨400, "Operador \x27contains\x27 só funciona com colunas de texto"⟩) := rfl

theorem getMatchRows_contains_object (df : DataFrame) (i : Nat)
    (value : String) :
    getMatchRows df i Dtype.object "contains" value =
      (match pyReCompileCI value with
       | .error e => .error ⟨500, "Erro ao filtrar dados: " ++ e⟩
       | .ok re =>
           getCatchAll (seriesFilterE df.rows (fun r => .ok
             (match cellAt r i with
              | .vstr s => reSearch re s
              | _ => false)))) := rfl

theorem pdEqScalar_num_rstr (cell : PdVal) (s : String)
    (h : numOrNull cell = true) : pdEqScalar cell (.rstr s) = false := by
  cases cell <;> simp_all [numOrNull, pdEqScalar]

/-- Claim C3 counterexample: `eq` with the un-coercible value `"abc"` on the
int column `fare` returns an empty 200 result through the POST path (no
coercion, no error), while the GET path's 400 error names the value but not
the column. -/
theorem eq_coercion_counterexample :
    apply_filter exDfFare ⟨"fare", "eq", .rstr "abc", none, some 1000⟩ =
      .ok [] ∧
    filter_data_get exDfFare "fare" "eq" "abc" 5 =
      .error ⟨400, "Valor \x27abc\x27 inválido para coluna numérica"⟩ ∧
    strContainsSub "Valor \x27abc\x27 inválido para coluna numérica" "fare" =
      false ∧
    pyFloatOfString "abc" = none := by decide

/-- Claim C3 (amended): the POST path never coerces — `eq` compares a string
value directly against a numeric column, which silently matches nothing; the
GET path coerces `eq` values to the numeric column's type, failing with a 400
whose message names the offending value (but not the column), and coerces
`gt` values through `float`, whose failure surfaces as a generic 500. -/
theorem coercion_behavior :
    (∀ (df : DataFrame) (c : String) (i : Nat) (s : String) (lim : Option Nat),
       df.colIdx c = some i →
       (∀ r ∈ df.rows, numOrNull (cellAt r i) = true) →
       apply_filter df ⟨c, "eq", .rstr s, none, lim⟩ = .ok []) ∧
    (∀ (df : DataFrame) (c : String) (i : Nat) (s : String) (lim : Nat),
       df.colIdx c = some i → numericDtype (df.dtypeAt i) = true →
       pyFloatOfString s = none →
       filter_data_get df c "eq" s lim =
         .error ⟨400, "Valor \x27" ++ s ++ "\x27 inválido para coluna numérica"⟩) ∧
    (∀ (df : DataFrame) (c : String) (i : Nat) (s : String) (lim : Nat),
       df.colIdx c = some i →
       pyFloatOfString s = none →
       filter_data_get df c "gt" s lim =
         .error ⟨500, "Erro ao filtrar dados: could not convert string to float: \x27"
           ++ s ++ "\x27"⟩) := by
  refine ⟨?_, ?_, ?_⟩
  · intro df c i s lim hci hnum
    unfold apply_filter
    rw [matchRows_eq_rstr df c i s none lim hci,
      seriesFilterE_eq_filter df.rows _ (fun _ => false)
        (fun r hr => by rw [pdEqScalar_num_rstr _ s (hnum r hr)])]
    simp only [List.filter_false, pyHead_nil]
  · intro df c i s lim hci hdt hbad
    rw [filter_data_get_some df c "eq" s lim i hci, getMatchRows_eq_shape]
    simp only [hdt, if_true, hbad]
  · intro df c i s lim hci hbad
    rw [filter_data_get_some df c "gt" s lim i hci, getMatchRows_gt_shape]
    simp only [hbad]

/-- Witness for C3 (amended) at the concrete `fare` frame with the
un-coercible value `"xyz"`. -/
theorem coercion_behavior_witness :
    apply_filter exDfFare ⟨"fare", "eq", .rstr "xyz", none, some 1000⟩ =
      .ok [] ∧
    filter_data_get exDfFare "fare" "eq" "xyz" 7 =
      .error ⟨400, "Valor \x27xyz\x27 inválido para coluna numérica"⟩ ∧
    filter_data_get exDfFare "fare" "gt" "xyz" 7 =
      .error ⟨500, "Erro ao filtrar dados: could not convert string to float: \x27xyz\x27"⟩ :=
  ⟨coercion_behavior.1 exDfFare "fare" 0 "xyz" (some 1000) (by decide) (by decide),
   coercion_behavior.2.1 exDfFare "fare" 0 "xyz" 7 (by decide) (by decide) (by decide),
   coercion_behavior.2.2 exDfFare "fare" 0 "xyz" 7 (by decide) (by decide)⟩

end TaxiApi

namespace TaxiApi

/-- Claim C4 counterexample: the POST path applies `contains` to the int64
column `n` as a regex over the stringified cells — `contains "1"` succeeds
and matches the rows printing as `1` and `12` instead of failing with an
unsupported-operator error; on an object column a null cell (stringified to
`nan`) matches `contains "a"`; the pattern `x.z` matches `xyz` although it
is not a substring of it (the dot is a regex metacharacter); and the invalid
pattern `(` raises, surfacing as a 400. -/
theorem contains_counterexample :
    apply_filter exDfContainsNum ⟨"n", "contains", .rstr "1", none, some 10⟩ =
      .ok [[.vint 1], [.vint 12]] ∧
    apply_filter exDfContainsStr ⟨"s", "contains", .rstr "a", none, some 10⟩ =
      .ok [[.vnull]] ∧
    apply_filter exDfReStr ⟨"s", "contains", .rstr "x.z", none, some 10⟩ =
      .ok [[.vstr "xyz"]] ∧
    strContainsSub "xyz" "x.z" = false ∧
    apply_filter exDfReStr ⟨"s", "contains", .rstr "(", none, some 10⟩ =
      .error ⟨400, "Erro no filtro: missing ), unterminated subpattern"⟩ ∧
    filter_data_get exDfReStr "s" "contains" "(" 10 =
      .error ⟨500, "Erro ao filtrar dados: missing ), unterminated subpattern"⟩ := by
  decide

/-- Claim C4 (amended): the POST path applies `contains` to every column by
stringifying it (numeric and timestamp included), treating the value as a
case-insensitive regular expression — an invalid pattern fails with a 400,
metacharacters are interpreted rather than matched literally, and nulls
become the string `nan`, which can match; the GET path rejects `contains` on
every non-object dtype — numeric, timestamp and categorical alike — with a
400 error, and on object columns runs the same case-insensitive regex
search, in which nulls never match and an invalid pattern surfaces as a
500. -/
theorem contains_behavior :
    (∀ (df : DataFrame) (c : String) (i : Nat) (v : ReqVal)
       (v2 : Option ReqVal) (lim : Option Nat),
       df.colIdx c = some i →
       apply_filter df ⟨c, "contains", v, v2, lim⟩ =
         (match pyReCompileCI v.pyStr with
          | .error e => .error ⟨400, "Erro no filtro: " ++ e⟩
          | .ok re => .ok (pyHead lim (df.rows.filter
              (fun r => reSearch re ((cellAt r i).astypeStr)))))) ∧
    (∀ (df : DataFrame) (c : String) (i : Nat) (value : String) (lim : Nat),
       df.colIdx c = some i → df.dtypeAt i ≠ Dtype.object →
       filter_data_get df c "contains" value lim =
         .error ⟨400, "Operador \x27contains\x27 só funciona com colunas de texto"⟩) ∧
    (∀ (df : DataFrame) (c : String) (i : Nat) (value : String) (lim : Nat),
       df.colIdx c = some i → df.dtypeAt i = Dtype.object →
       filter_data_get df c "contains" value lim =
         (match pyReCompileCI value with
          | .error e => .error ⟨500, "Erro ao filtrar dados: " ++ e⟩
          | .ok re =>
              .ok ⟨(getContainsMatches df i re).length,
                   ((getContainsMatches df i re).take lim).length,
                   (getContainsMatches df i re).take lim⟩)) := by
  refine ⟨?_, ?_, ?_⟩
  · intro df c i v v2 lim hci
    unfold apply_filter
    rw [matchRows_contains df c i v v2 lim hci]
    cases hcomp : pyReCompileCI v.pyStr with
    | error e => rfl
    | ok re =>
        have hS : seriesFilterE df.rows
            (fun r => Except.ok (reSearch re ((cellAt r i).astypeStr))) =
            Except.ok (df.rows.filter
              (fun r => reSearch re ((cellAt r i).astypeStr))) :=
          seriesFilterE_eq_filter _ _ _ (fun r hr => rfl)
        simp only [hS]
  · intro df c i value lim hci hne
    rw [filter_data_get_some df c "contains" value lim i hci,
      getMatchRows_contains_shape]
    have hb : (df.dtypeAt i == Dtype.object) = false :=
      beq_eq_false_iff_ne.mpr hne
    simp only [hb, Bool.false_eq_true, if_false]
  · intro df c i value lim hci hdt
    rw [filter_data_get_some df c "contains" value lim i hci, hdt,
      getMatchRows_contains_object]
    cases hcomp : pyReCompileCI value with
    | error e => rfl
    | ok re =>
        have hS : seriesFilterE df.rows
            (fun r => Except.ok
              (match cellAt r i with
               | .vstr s => reSearch re s
               | _ => false)) =
            Except.ok (df.rows.filter
              (fun r =>
                match cellAt r i with
                | .vstr s => reSearch re s
                | _ => false)) :=
          seriesFilterE_eq_filter _ _ _ (fun r hr => rfl)
        simp only [hS]
        unfold getContainsMatches
        rfl

/-- Witness for C4 (amended): the regex `x.z` matched through POST on the
object column, the int column rejected by GET, and the GET object-column
search. -/
theorem contains_behavior_witness :
    apply_filter exDfReStr ⟨"s", "contains", .rstr "x.z", none, some 10⟩ =
      (match pyReCompileCI (ReqVal.rstr "x.z").pyStr with
       | .error e => .error ⟨400, "Erro no filtro: " ++ e⟩
       | .ok re => .ok (pyHead (some 10) (exDfReStr.rows.filter
           (fun r => reSearch re ((cellAt r 0).astypeStr))))) ∧
    filter_data_get exDfContainsNum "n" "contains" "2" 10 =
      .error ⟨400, "Operador \x27contains\x27 só funciona com colunas de texto"⟩ ∧
    filter_data_get exDfContainsStr "s" "contains" "X" 10 =
      (match pyReCompileCI "X" with
       | .error e => .error ⟨500, "Erro ao filtrar dados: " ++ e⟩
       | .ok re =>
           .ok ⟨(getContainsMatches exDfContainsStr 0 re).length,
                ((getContainsMatches exDfContainsStr 0 re).take 10).length,
                (getContainsMatches exDfContainsStr 0 re).take 10⟩) :=
  ⟨contains_behavior.1 exDfReStr "s" 0 (.rstr "x.z") none (some 10)
     (by decide),
   contains_behavior.2.1 exDfContainsNum "n" 0 "2" 10 (by decide) (by decide),
   contains_behavior.2.2 exDfContainsStr "s" 0 "X" 10 (by decide) (by decide)⟩

end TaxiApi

namespace TaxiApi

end TaxiApi

namespace TaxiApi

theorem iterLoads_v2_reads (storage : Option DataFrame) (df : DataFrame)
    (h : storage = some df) (n : Nat) (s : ApiState) :
    (iterLoads load_v2 storage n s).reads = s.reads + n := by
  subst h
  induction n generalizing s with
  | zero => rfl
  | succ n ih =>
      show (iterLoads load_v2 (some df) n
        (load_v2 (some df) s).1).reads = s.reads + (n + 1)
      rw [ih]
      show s.reads + 1 + n = s.reads + (n + 1)
      omega

theorem iterLoads_v1_cached (df : DataFrame) (k n : Nat) :
    iterLoads load_v1 (some df) n ⟨some df, k⟩ = ⟨some df, k⟩ := by
  induction n with
  | zero => rfl
  | succ n ih => exact ih

/-- Claim C1 (the code contradicts it): the handlers call the name
`load_parquet_data`, which Python binds to the second, cache-less definition
(main.py line 427); after `n` calls with readable storage the process has
performed `n` storage reads, not 1 — while the shadowed caching definition
(line 39) would have read storage exactly once for any `n ≥ 1`. -/
theorem load_parquet_data_rereads (storage : Option DataFrame)
    (df : DataFrame) (n : Nat) (h : storage = some df) :
    (iterLoads load_parquet_data storage n ⟨none, 0⟩).reads = n ∧
    (iterLoads load_v1 storage n ⟨none, 0⟩).reads = min 1 n := by
  subst h
  constructor
  · show (iterLoads load_v2 (some df) n ⟨none, 0⟩).reads = n
    rw [iterLoads_v2_reads (some df) df rfl n ⟨none, 0⟩]
    simp
  · cases n with
    | zero => rfl
    | succ n =>
        show (iterLoads load_v1 (some df) n
          (load_v1 (some df) ⟨none, 0⟩).1).reads = min 1 (n + 1)
        rw [show (load_v1 (some df) ⟨none, 0⟩).1 = ⟨some df, 1⟩ from rfl,
          iterLoads_v1_cached df 1 n]
        simp

/-- Witness for C1 at a concrete frame: after two calls the live loader has
read storage twice, the shadowed caching loader once. -/
theorem load_parquet_data_rereads_witness :
    (iterLoads load_parquet_data (some exDfEmpty) 2 ⟨none, 0⟩).reads = 2 ∧
    (iterLoads load_v1 (some exDfEmpty) 2 ⟨none, 0⟩).reads = min 1 2 :=
  load_parquet_data_rereads (some exDfEmpty) exDfEmpty 2 rfl

end TaxiApi

namespace Consolidate

theorem processChunks_fst (fs : List ChunkFolder) :
    (processChunks fs).1 =
      (fs.filter readableChunk).map (fun f => f.content.getD []) := by
  induction fs with
  | nil => rfl
  | cons f fs ih =>
      unfold processChunks
      cases hp : f.hasParquet with
      | false =>
          have hr : readableChunk f = false := by
            unfold readableChunk
            rw [hp]
            rfl
          simp [List.filter_cons, hr, ih]
      | true =>
          cases hc : f.content with
          | none =>
              have hr : readableChunk f = false := by
                unfold readableChunk
                rw [hp, hc]
                rfl
              simp [List.filter_cons, hr, ih]
          | some rows =>
              have hr : readableChunk f = true := by
                unfold readableChunk
                rw [hp, hc]
                rfl
              simp [List.filter_cons, hr, ih, hc]

theorem processChunks_snd (fs : List ChunkFolder) :
    (processChunks fs).2 =
      (fs.filter readableChunk).map (fun f => f.name) := by
  induction fs with
  | nil => rfl
  | cons f fs ih =>
      unfold processChunks
      cases hp : f.hasParquet with
      | false =>
          have hr : readableChunk f = false := by
            unfold readableChunk
            rw [hp]
            rfl
          simp [List.filter_cons, hr, ih]
      | true =>
          cases hc : f.content with
          | none =>
              have hr : readableChunk f = false := by
                unfold readableChunk
                rw [hp, hc]
                rfl
              simp [List.filter_cons, hr, ih]
          | some rows =>
              have hr : readableChunk f = true := by
                unfold readableChunk
                rw [hp, hc]
                rfl
              simp [List.filter_cons, hr, ih]

theorem isEmpty_map {α β : Type} (f : α → β) (l : List α) :
    (l.map f).isEmpty = l.isEmpty := by
  cases l <;> rfl

theorem mem_insertByName (g f : ChunkFolder) (fs : List ChunkFolder) :
    g ∈ insertByName f fs ↔ g ∈ f :: fs := by
  induction fs with
  | nil => rfl
  | cons h hs ih =>
      unfold insertByName
      by_cases hle : f.name ≤ h.name
      · simp [hle]
      · simp only [if_neg hle, List.mem_cons, ih]
        tauto

theorem mem_sortByName (g : ChunkFolder) (fs : List ChunkFolder) :
    g ∈ sortByName fs ↔ g ∈ fs := by
  induction fs with
  | nil => rfl
  | cons f fs ih =>
      unfold sortByName
      rw [mem_insertByName]
      simp [ih]

/-- Claim C5 counterexample: one readable chunk folder and a failing
consolidated write — the job deletes the chunk anyway and produces no
output, so sources are destroyed without success. -/
theorem delete_before_write_counterexample :
    consolidate_chunks_and_cleanup "p" [exFolder] false =
      ⟨["chunk_0"], none⟩ := by decide

/-- Claim C5 (amended): every successfully-read chunk folder is deleted
regardless of whether the consolidated write succeeds (deletion happens
immediately after reading, before any output exists); on write failure no
output is produced but the read chunks are already gone; on success exactly
one consolidated file appears at `PARQUET_PATH + "_consolidated.parquet"`
holding the concatenation of the readable chunks in name order; unreadable
folders are skipped and kept. -/
theorem consolidate_behavior (path : String) (folders : List ChunkFolder) :
    (∀ writeOk, (consolidate_chunks_and_cleanup path folders writeOk).deleted =
       ((sortByName folders).filter readableChunk).map (fun f => f.name)) ∧
    (consolidate_chunks_and_cleanup path folders false).output = none ∧
    (∀ f ∈ folders, readableChunk f = true →
       (consolidate_chunks_and_cleanup path folders true).output =
         some (path ++ "_consolidated.parquet",
           (((sortByName folders).filter readableChunk).map
             (fun f => f.content.getD [])).flatten)) := by
  have hkey : ∀ writeOk, consolidate_chunks_and_cleanup path folders writeOk =
      ⟨((sortByName folders).filter readableChunk).map (fun f => f.name),
       if ((sortByName folders).filter readableChunk).isEmpty then none
       else if writeOk then
         some (path ++ "_consolidated.parquet",
           (((sortByName folders).filter readableChunk).map
             (fun f => f.content.getD [])).flatten)
       else none⟩ := by
    intro writeOk
    unfold consolidate_chunks_and_cleanup
    dsimp only
    rw [processChunks_fst, processChunks_snd, isEmpty_map]
    split_ifs <;> rfl
  refine ⟨?_, ?_, ?_⟩
  · intro writeOk
    simp [hkey]
  · simp [hkey]
  · intro f hf hr
    have hmem : f ∈ (sortByName folders).filter readableChunk :=
      List.mem_filter.mpr ⟨(mem_sortByName f folders).mpr hf, hr⟩
    have hcond : ((sortByName folders).filter readableChunk).isEmpty = false := by
      cases hI : ((sortByName folders).filter readableChunk).isEmpty with
      | false => rfl
      | true => exact absurd (List.isEmpty_iff.mp hI ▸ hmem) (List.not_mem_nil f)
    rw [hkey]
    simp [hcond]

/-- Witness for C5 (amended) at the concrete chunk folder: on success the
consolidated file holds the chunk's rows. -/
theorem consolidate_behavior_witness :
    (consolidate_chunks_and_cleanup "p" [exFolder] true).output =
      some ("p_consolidated.parquet", [[1], [2]]) :=
  ((consolidate_behavior "p" [exFolder]).2.2 exFolder (by decide)
      (by decide)).trans (by decide)

end Consolidate

namespace SparkJob

theorem tand_eq_tt (a b : TBool) : tand a b = .tt ↔ a = .tt ∧ b = .tt := by
  cases a <;> cases b <;> simp [tand]

theorem notNullT_eq_tt {α : Type} (o : Option α) :
    notNullT o = .tt ↔ ∃ x, o = some x := by
  cases o <;> simp [notNullT]

theorem cmpT_eq_tt {α : Type} (f : α → Bool) (o : Option α) :
    cmpT f o = .tt ↔ ∃ x, o = some x ∧ f x = true := by
  cases o with
  | none => simp [cmpT]
  | some x => cases hfx : f x <;> simp [cmpT, hfx]

theorem cmp2T_eq_tt {α : Type} (f : α → α → Bool) (o1 o2 : Option α) :
    cmp2T f o1 o2 = .tt ↔
      ∃ x y, o1 = some x ∧ o2 = some y ∧ f x y = true := by
  cases o1 with
  | none => simp [cmp2T]
  | some x =>
      cases o2 with
      | none => simp [cmp2T]
      | some y => cases hfxy : f x y <;> simp [cmp2T, hfxy]

theorem isinT_eq_tt {α : Type} [BEq α] [LawfulBEq α] (vals : List α)
    (o : Option α) : isinT vals o = .tt ↔ ∃ x, o = some x ∧ x ∈ vals := by
  constructor
  · intro h
    cases o with
    | none => simp [isinT] at h
    | some x =>
        refine ⟨x, rfl, ?_⟩
        by_cases hc : x ∈ vals
        · exact hc
        · exfalso
          have hc' : vals.elem x = false := by
            cases he : vals.elem x with
            | false => rfl
            | true => exact absurd (List.elem_iff.mp he) hc
          simp [isinT, List.contains, hc'] at h
          exact hc h
  · rintro ⟨x, rfl, hmem⟩
    have hc : vals.elem x = true := List.elem_iff.mpr hmem
    simp [isinT, List.contains, hc]
    exact hmem

theorem validityFilter_iff (r : RawRow) :
    validityFilter r = true ↔
      ((∃ s, r.tpep_pickup_datetime = some s) ∧
       (∃ s, r.tpep_dropoff_datetime = some s) ∧
       (∃ n, r.passenger_count = some n ∧ 1 ≤ n ∧ n ≤ 8) ∧
       (∃ d, r.trip_distance = some d ∧ 0 < d ∧ d < 500) ∧
       (∃ fa, r.fare_amount = some fa ∧ 0 < fa ∧ fa < 1000) ∧
       (∃ ta, r.total_amount = some ta ∧ 0 < ta ∧ ta < 1000) ∧
       (∃ tp, r.tip_amount = some tp ∧ 0 ≤ tp) ∧
       (∃ rc, r.RatecodeID = some rc ∧ rc ∈ ([1, 2, 3, 4, 5, 6] : List Int)) ∧
       (∃ pt, r.payment_type = some pt ∧
          pt ∈ ([1, 2, 3, 4, 5, 6] : List Int))) := by
  unfold validityFilter validityCond
  rw [beq_iff_eq]
  simp only [tand_eq_tt, notNullT_eq_tt, cmpT_eq_tt, isinT_eq_tt,
    decide_eq_true_eq]
  constructor
  · rintro ⟨⟨s1, h1⟩, ⟨s2, h2⟩, ⟨n3, h3⟩, ⟨d4, h4⟩, ⟨f5, h5⟩, ⟨n6, h6, hn6⟩,
      ⟨n7, h7, hn7⟩, ⟨d8, h8, hd8⟩, ⟨d9, h9, hd9⟩, ⟨f10, h10, hf10⟩,
      ⟨f11, h11, hf11⟩, ⟨t12, h12, ht12⟩, ⟨t13, h13, ht13⟩,
      ⟨p14, h14, hp14⟩, ⟨rc, hrc, hrcm⟩, ⟨pt, hpt, hptm⟩⟩
    refine ⟨⟨s1, h1⟩, ⟨s2, h2⟩, ⟨n6, h6, hn6, ?_⟩, ⟨d8, h8, hd8, ?_⟩,
      ⟨f10, h10, hf10, ?_⟩, ⟨t12, h12, ht12, ?_⟩, ⟨p14, h14, hp14⟩,
      ⟨rc, hrc, hrcm⟩, ⟨pt, hpt, hptm⟩⟩
    · rw [h6] at h7
      rw [Option.some.inj h7]
      exact hn7
    · rw [h8] at h9
      rw [Option.some.inj h9]
      exact hd9
    · rw [h10] at h11
      rw [Option.some.inj h11]
      exact hf11
    · rw [h12] at h13
      rw [Option.some.inj h13]
      exact ht13
  · rintro ⟨⟨s1, h1⟩, ⟨s2, h2⟩, ⟨pc, hpc, hpc1, hpc8⟩, ⟨d, hd, hd0, hd5⟩,
      ⟨fa, hfa, hfa0, hfa1⟩, ⟨ta, hta, hta0, hta1⟩, ⟨tp, htp, htp0⟩,
      ⟨rc, hrc, hrcm⟩, ⟨pt, hpt, hptm⟩⟩
    exact ⟨⟨s1, h1⟩, ⟨s2, h2⟩, ⟨pc, hpc⟩, ⟨d, hd⟩, ⟨fa, hfa⟩, ⟨pc, hpc, hpc1⟩,
      ⟨pc, hpc, hpc8⟩, ⟨d, hd, hd0⟩, ⟨d, hd, hd5⟩, ⟨fa, hfa, hfa0⟩,
      ⟨fa, hfa, hfa1⟩, ⟨ta, hta, hta0⟩, ⟨ta, hta, hta1⟩, ⟨tp, htp, htp0⟩,
      ⟨rc, hrc, hrcm⟩, ⟨pt, hpt, hptm⟩⟩

/-- Claim C8: the ValidityFilter keeps a raw row exactly when the five
required fields are non-null and all the bounds of the spec hold
(`1 ≤ passenger_count ≤ 8`, `0 < trip_distance < 500`,
`0 < fare_amount < 1000`, `0 < total_amount < 1000`, `tip_amount ≥ 0`,
`RatecodeID ∈ 1..6`, `payment_type ∈ 1..6`); in particular a row with
`passenger_count = 9` is rejected and never appears in the stage's output,
the input to the timestamp parse / DeriveColumns. -/
theorem validity_filter_spec (r : RawRow) :
    (validityFilter r = true ↔
      ((∃ s, r.tpep_pickup_datetime = some s) ∧
       (∃ s, r.tpep_dropoff_datetime = some s) ∧
       (∃ n, r.passenger_count = some n ∧ 1 ≤ n ∧ n ≤ 8) ∧
       (∃ d, r.trip_distance = some d ∧ 0 < d ∧ d < 500) ∧
       (∃ fa, r.fare_amount = some fa ∧ 0 < fa ∧ fa < 1000) ∧
       (∃ ta, r.total_amount = some ta ∧ 0 < ta ∧ ta < 1000) ∧
       (∃ tp, r.tip_amount = some tp ∧ 0 ≤ tp) ∧
       (∃ rc, r.RatecodeID = some rc ∧ rc ∈ ([1, 2, 3, 4, 5, 6] : List Int)) ∧
       (∃ pt, r.payment_type = some pt ∧
          pt ∈ ([1, 2, 3, 4, 5, 6] : List Int)))) ∧
    (r.passenger_count = some 9 →
      validityFilter r = false ∧ ∀ rows : List RawRow, r ∉ validity_stage rows) := by
  refine ⟨validityFilter_iff r, ?_⟩
  intro h9
  have hv : validityFilter r = false := by
    cases hv : validityFilter r with
    | false => rfl
    | true =>
        obtain ⟨-, -, ⟨n, hn, h1n, hn8⟩, -⟩ := (validityFilter_iff r).mp hv
        rw [h9] at hn
        cases Option.some.inj hn
        omega
  refine ⟨hv, fun rows hmem => ?_⟩
  have hmem2 := (List.mem_filter.mp hmem).2
  rw [hv] at hmem2
  cases hmem2

/-- Witness for C8 at the concrete row with `passenger_count = 9`. -/
theorem validity_filter_spec_witness :
    validityFilter row9 = false ∧ row9 ∉ validity_stage [row9] :=
  ⟨((validity_filter_spec row9).2 rfl).1,
   ((validity_filter_spec row9).2 rfl).2 [row9]⟩

end SparkJob

namespace SparkJob

theorem dateCond_eq_tt (env : SparkEnv) (t : TsRow) :
    dateCond env t = .tt ↔
      ∃ p d, t.tpep_pickup_datetime = some p ∧
        t.tpep_dropoff_datetime = some d ∧ p < d ∧
        env.yearOf p = 2018 ∧ env.yearOf d = 2018 := by
  unfold dateCond
  simp only [tand_eq_tt, notNullT_eq_tt, cmpT_eq_tt, cmp2T_eq_tt,
    decide_eq_true_eq]
  constructor
  · rintro ⟨⟨p, hp⟩, ⟨d, hd⟩, ⟨p2, d2, hp2, hd2, hlt⟩, ⟨p3, hp3, hy3⟩,
      ⟨d4, hd4, hy4⟩⟩
    refine ⟨p, d, hp, hd, ?_, ?_, ?_⟩
    · rw [hp] at hp2
      rw [hd] at hd2
      rw [Option.some.inj hp2, Option.some.inj hd2]
      exact hlt
    · rw [hp] at hp3
      rw [Option.some.inj hp3]
      exact hy3
    · rw [hd] at hd4
      rw [Option.some.inj hd4]
      exact hy4
  · rintro ⟨p, d, hp, hd, hlt, hyp, hyd⟩
    exact ⟨⟨p, hp⟩, ⟨d, hd⟩, ⟨p, d, hp, hd, hlt⟩, ⟨p, hp, hyp⟩, ⟨d, hd, hyd⟩⟩

theorem rangeCond_eq_tt (e : EnrichedRow) :
    rangeCond e = .tt ↔
      ((∃ q, e.trip_duration_minutes = some q ∧ 1 ≤ q ∧ q ≤ 480) ∧
       (∃ s, e.speed_mph = some s ∧ 0 ≤ s ∧ s ≤ 80) ∧
       (∃ t, e.tip_percentage = some t ∧ 0 ≤ t ∧ t ≤ 50)) := by
  unfold rangeCond
  simp only [tand_eq_tt, cmpT_eq_tt, decide_eq_true_eq]
  constructor
  · rintro ⟨⟨q1, h1, hq1⟩, ⟨q2, h2, hq2⟩, ⟨s3, h3, hs3⟩, ⟨s4, h4, hs4⟩,
      ⟨t5, h5, ht5⟩, ⟨t6, h6, ht6⟩⟩
    refine ⟨⟨q1, h1, hq1, ?_⟩, ⟨s3, h3, hs3, ?_⟩, ⟨t5, h5, ht5, ?_⟩⟩
    · rw [h1] at h2
      rw [Option.some.inj h2]
      exact hq2
    · rw [h3] at h4
      rw [Option.some.inj h4]
      exact hs4
    · rw [h5] at h6
      rw [Option.some.inj h6]
      exact ht6
  · rintro ⟨⟨q, hq, hq1, hq2⟩, ⟨s, hs, hs1, hs2⟩, ⟨t, ht, ht1, ht2⟩⟩
    exact ⟨⟨q, hq, hq1⟩, ⟨q, hq, hq2⟩, ⟨s, hs, hs1⟩, ⟨s, hs, hs2⟩,
      ⟨t, ht, ht1⟩, ⟨t, ht, ht2⟩⟩

theorem enrich_goodTs_fields :
    (enrich env0 goodTs).trip_duration_minutes = some 100 ∧
    (enrich env0 goodTs).speed_mph = some 6 ∧
    (enrich env0 goodTs).tip_percentage = some 0 := by
  have hp : goodTs.tpep_pickup_datetime = some 100 := by decide
  have hd : goodTs.tpep_dropoff_datetime = some 6100 := by decide
  have hdist : goodTs.trip_distance = some 10 := by decide
  have hfare : goodTs.fare_amount = some 10 := by decide
  have htip : goodTs.tip_amount = some 0 := by decide
  unfold enrich
  dsimp only
  simp only [hp, hd, hdist, hfare, htip]
  norm_num

theorem pipeline_good : pipeline env0 [goodRow] = [enrich env0 goodTs] := by
  unfold pipeline
  have h1 : (validity_stage [goodRow]).map (parseRow env0) = [goodTs] := by
    decide
  rw [h1]
  have h2 : date_stage env0 [goodTs] = [goodTs] := by decide
  rw [h2]
  show List.filter (fun e => rangeCond e == TBool.tt) [enrich env0 goodTs] =
    [enrich env0 goodTs]
  have h3 : rangeCond (enrich env0 goodTs) = TBool.tt := by
    obtain ⟨hdur, hspeed, htp⟩ := enrich_goodTs_fields
    unfold rangeCond
    rw [hdur, hspeed, htp]
    decide
  simp [List.filter_cons, h3]

/-- Claim C9 counterexample: a valid row whose pickup equals its dropoff
after parsing passes the ValidityFilter but is removed by the DateFilter's
strict `pickup < dropoff` requirement — the rows reaching the
derive/RangeFilter stages from this input are empty, so the exclusion does
not happen at RangeFilter and `trip_duration_minutes` is never computed as 0. -/
theorem equal_ts_counterexample :
    validityFilter rowEq = true ∧
    date_stage env0 ((validity_stage [rowEq]).map (parseRow env0)) = [] ∧
    pipeline env0 [rowEq] = [] := by decide

/-- Claim C9 (amended): every row of the pipeline's final output satisfies
`1 ≤ trip_duration_minutes ≤ 480`, `0 ≤ speed_mph ≤ 80` and
`0 ≤ tip_percentage ≤ 50`; a row whose pickup equals its dropoff after
parsing is excluded by the DateFilter (strict `pickup < dropoff`) before
`trip_duration_minutes` is ever derived, not by RangeFilter. -/
theorem range_bounds_spec :
    (∀ (env : SparkEnv) (rows : List RawRow) (e : EnrichedRow),
       e ∈ pipeline env rows →
       (∃ q, e.trip_duration_minutes = some q ∧ 1 ≤ q ∧ q ≤ 480) ∧
       (∃ s, e.speed_mph = some s ∧ 0 ≤ s ∧ s ≤ 80) ∧
       (∃ t, e.tip_percentage = some t ∧ 0 ≤ t ∧ t ≤ 50)) ∧
    (∀ (env : SparkEnv) (t : TsRow) (p : Int),
       t.tpep_pickup_datetime = some p → t.tpep_dropoff_datetime = some p →
       ∀ ts : List TsRow, t ∉ date_stage env ts) := by
  constructor
  · intro env rows e he
    unfold pipeline range_stage at he
    have h2 := (List.mem_filter.mp he).2
    rw [beq_iff_eq] at h2
    exact (rangeCond_eq_tt e).mp h2
  · intro env t p hp hd ts hmem
    unfold date_stage at hmem
    have h := (List.mem_filter.mp hmem).2
    rw [beq_iff_eq] at h
    obtain ⟨p1, d1, hp1, hd1, hlt, -, -⟩ := (dateCond_eq_tt env t).mp h
    rw [hp] at hp1
    rw [hd] at hd1
    rw [← Option.some.inj hp1, ← Option.some.inj hd1] at hlt
    exact lt_irrefl _ hlt

/-- Witness for C9 (amended): the surviving concrete row's derived columns
satisfy the bounds, and the equal-timestamps row is not in the DateFilter's
output. -/
theorem range_bounds_spec_witness :
    ((∃ q, (enrich env0 goodTs).trip_duration_minutes = some q ∧
        1 ≤ q ∧ q ≤ 480) ∧
     (∃ s, (enrich env0 goodTs).speed_mph = some s ∧ 0 ≤ s ∧ s ≤ 80) ∧
     (∃ t, (enrich env0 goodTs).tip_percentage = some t ∧ 0 ≤ t ∧ t ≤ 50)) ∧
    tsEq ∉ date_stage env0 [tsEq] :=
  ⟨range_bounds_spec.1 env0 [goodRow] (enrich env0 goodTs)
     (by rw [pipeline_good]; exact List.mem_singleton.mpr rfl),
   range_bounds_spec.2 env0 tsEq 100 (by decide) (by decide) [tsEq]⟩

/-- Claim C10: every row of the pipeline's final output has its pickup
strictly before its dropoff, a strictly positive `trip_duration_minutes`
equal to `(dropoff - pickup) / 60`, and `speed_mph` exactly equal to
`trip_distance / (trip_duration_minutes / 60)` — the `otherwise(0)` fallback
of the speed derivation is unreachable for output rows. -/
theorem speed_exact (env : SparkEnv) (rows : List RawRow) (e : EnrichedRow)
    (he : e ∈ pipeline env rows) :
    ∃ p d dist q, e.base.tpep_pickup_datetime = some p ∧
      e.base.tpep_dropoff_datetime = some d ∧ p < d ∧
      e.base.trip_distance = some dist ∧
      e.trip_duration_minutes = some q ∧ q = ((d - p : Int) : ℚ) / 60 ∧
      0 < q ∧ e.speed_mph = some (dist / (q / 60)) := by
  unfold pipeline range_stage at he
  have he2 := (List.mem_filter.mp he).1
  obtain ⟨t, ht, rfl⟩ := List.mem_map.mp he2
  unfold date_stage at ht
  have hdc := (List.mem_filter.mp ht).2
  rw [beq_iff_eq] at hdc
  obtain ⟨p, d, hp, hd, hlt, -, -⟩ := (dateCond_eq_tt env t).mp hdc
  have htmem := (List.mem_filter.mp ht).1
  obtain ⟨r, hr, hparse⟩ := List.mem_map.mp htmem
  have hvr := (List.mem_filter.mp hr).2
  obtain ⟨-, -, -, ⟨dist, hdist, -, -⟩, -⟩ := (validityFilter_iff r).mp hvr
  have hdistT : t.trip_distance = some dist := by
    rw [← hparse]
    exact hdist
  have hq : (0 : ℚ) < ((d - p : Int) : ℚ) / 60 := by
    have h1 : (0 : ℚ) < ((d - p : Int) : ℚ) := by
      exact_mod_cast Int.sub_pos.mpr hlt
    positivity
  have hdur : (enrich env t).trip_duration_minutes =
      some (((d - p : Int) : ℚ) / 60) := by
    unfold enrich
    dsimp only
    simp only [hp, hd]
  have hspeed : (enrich env t).speed_mph =
      some (dist / ((((d - p : Int) : ℚ) / 60) / 60)) := by
    unfold enrich
    dsimp only
    simp only [hp, hd, hdistT]
    rw [if_pos hq]
  exact ⟨p, d, dist, ((d - p : Int) : ℚ) / 60, hp, hd, hlt, hdistT,
    hdur, rfl, hq, hspeed⟩

/-- Witness for C10 at the concrete surviving row: pickup 100, dropoff 6100,
so 100 minutes and 6 mph. -/
theorem speed_exact_witness :
    ∃ p d dist q,
      (enrich env0 goodTs).base.tpep_pickup_datetime = some p ∧
      (enrich env0 goodTs).base.tpep_dropoff_datetime = some d ∧ p < d ∧
      (enrich env0 goodTs).base.trip_distance = some dist ∧
      (enrich env0 goodTs).trip_duration_minutes = some q ∧
      q = ((d - p : Int) : ℚ) / 60 ∧ 0 < q ∧
      (enrich env0 goodTs).speed_mph = some (dist / (q / 60)) :=
  speed_exact env0 [goodRow] (enrich env0 goodTs)
    (by rw [pipeline_good]; exact List.mem_singleton.mpr rfl)

end SparkJob
